import Mathlib

namespace AtomGPT

/-- JSON values as produced by Python `json.load`: null, booleans, numbers,
strings, arrays and objects.  Objects are insertion-ordered association lists
with pairwise-distinct keys (the shape `json.load` produces).  A JSON number
literal is an exact decimal, stored as a mantissa and a decimal shift:
`jnum m e` denotes `m / 10 ^ e` (so `1.2` is `jnum 12 1`, `0.8` is `jnum 8 1`,
integers have shift `0`).  Python's binary floating-point rounding is outside
the model; every comparison the claims exercise is decided identically by the
exact decimals and by doubles. -/
inductive JVal where
  | jnull : JVal
  | jbool : Bool → JVal
  | jnum  : Int → Nat → JVal
  | jstr  : String → JVal
  | jarr  : List JVal → JVal
  | jobj  : List (String × JVal) → JVal

/-- Lookup of a key in a parsed JSON object (Python `d[k]` / `d.get(k)`);
first match, keys are unique in parsed objects. -/
def jlookup (k : String) : List (String × JVal) → Option JVal
  | [] => none
  | (k2, v) :: rest => if k = k2 then some v else jlookup k rest

/-- Python truthiness on JSON-derived values, as tested by `if not x:`. -/
def pyFalsy : JVal → Bool
  | .jnull => true
  | .jbool b => !b
  | .jnum m _ => m == 0
  | .jstr s => s == ""
  | .jarr xs => xs.isEmpty
  | .jobj kvs => kvs.isEmpty

/-- `m1 / 10 ^ e1 < m2 / 10 ^ e2`, decided by cross-multiplying with the
(positive) powers of ten. -/
def numLt (m1 : Int) (e1 : Nat) (m2 : Int) (e2 : Nat) : Bool :=
  m1 * (10 : Int) ^ e2 < m2 * (10 : Int) ^ e1

/-- `m1 / 10 ^ e1 = m2 / 10 ^ e2` as exact rationals. -/
def numEq (m1 : Int) (e1 : Nat) (m2 : Int) (e2 : Nat) : Bool :=
  m1 * (10 : Int) ^ e2 == m2 * (10 : Int) ^ e1

/-- The numeric value of a Python bool (`True == 1`, `False == 0`). -/
def boolNum (b : Bool) : Int := if b then 1 else 0

/-- Lexicographic order on code-point sequences, as Python compares
strings. -/
def charsLt : List Char → List Char → Bool
  | [], [] => false
  | [], _ :: _ => true
  | _ :: _, [] => false
  | c :: cs, d :: ds =>
      c.toNat < d.toNat || (c.toNat == d.toNat && charsLt cs ds)

/-- Python `str < str`: lexicographic comparison by code points. -/
def strLt (a b : String) : Bool := charsLt a.data b.data

/-- Python `str.isalnum` on a single character.  Modelled exactly for code
points up to U+00FF (ASCII digits and letters; the feminine and masculine
ordinal indicators, micro sign, superscript and fraction characters of
Latin-1; Latin-1 letters except the multiplication and division signs).
Code points above U+00FF — many of which Python also classes alphanumeric —
lie outside the modelled character repertoire and are treated as
non-alphanumeric. -/
def pyIsAlnum (c : Char) : Bool :=
  let n := c.toNat
  (48 ≤ n && n ≤ 57) || (65 ≤ n && n ≤ 90) || (97 ≤ n && n ≤ 122) ||
  n == 0xAA || n == 0xB2 || n == 0xB3 || n == 0xB5 || n == 0xB9 || n == 0xBA ||
  (0xBC ≤ n && n ≤ 0xBE) ||
  (0xC0 ≤ n && n ≤ 0xFF && n != 0xD7 && n != 0xF7)

/-- One character of the sanitizer comprehension,
`c if c.isalnum() or c in ('_', '-') else '_'`. -/
def sanitizeChar (c : Char) : Char :=
  if pyIsAlnum c || c == '_' || c == '-' then c else '_'

/-- `sanitize_filename` from src/2D/makePOSCARs.py line 101 (textually
identical in all four tools): keep a character if it is alphanumeric, `_`
or `-`, otherwise replace it by `_`. -/
def sanitize_filename (name : String) : String :=
  String.mk (name.data.map sanitizeChar)

mutual
/-- Python `==` restricted to JSON-derived values: null equals only null,
booleans compare as the numbers 0/1, numbers by value, strings by code
points, lists element-wise, dicts by key set with equal values; any other
cross-type comparison is `False`. -/
def pyEq : JVal → JVal → Bool
  | .jnull, .jnull => true
  | .jstr a, .jstr b => a == b
  | .jarr a, .jarr b => pyEqList a b
  | .jobj a, .jobj b => a.length == b.length && pyEqSub a b
  | .jnum m1 e1, .jnum m2 e2 => numEq m1 e1 m2 e2
  | .jbool a, .jbool b => a == b
  | .jbool a, .jnum m e => numEq (boolNum a) 0 m e
  | .jnum m e, .jbool b => numEq m e (boolNum b) 0
  | _, _ => false

/-- Element-wise Python `==` on lists. -/
def pyEqList : List JVal → List JVal → Bool
  | [], [] => true
  | x :: xs, y :: ys => pyEq x y && pyEqList xs ys
  | _, _ => false

/-- Every key of the first object occurs in the second with a `pyEq` value. -/
def pyEqSub : List (String × JVal) → List (String × JVal) → Bool
  | [], _ => true
  | (k, v) :: rest, b => pyEqKey k v b && pyEqSub rest b

/-- The key `k` occurs in the object with a value `pyEq` to `v`. -/
def pyEqKey : String → JVal → List (String × JVal) → Bool
  | _, _, [] => false
  | k, v, (k2, w) :: b => (k == k2 && pyEq v w) || pyEqKey k v b
end

mutual
/-- Python `<` on JSON-derived values: `some r` when the comparison is
defined (numbers and booleans numerically, strings by code points, lists
lexicographically), `none` when Python raises `TypeError`. -/
def pyLt : JVal → JVal → Option Bool
  | .jnum m1 e1, .jnum m2 e2 => some (numLt m1 e1 m2 e2)
  | .jnum m e, .jbool b => some (numLt m e (boolNum b) 0)
  | .jbool a, .jnum m e => some (numLt (boolNum a) 0 m e)
  | .jbool a, .jbool b => some (numLt (boolNum a) 0 (boolNum b) 0)
  | .jstr a, .jstr b => some (strLt a b)
  | .jarr a, .jarr b => pyLtList a b
  | _, _ => none

/-- Python list `<`: find the first index at which the elements are not `==`
and compare there; an exhausted prefix makes the shorter list smaller. -/
def pyLtList : List JVal → List JVal → Option Bool
  | [], [] => some false
  | [], _ :: _ => some true
  | _ :: _, [] => some false
  | x :: xs, y :: ys => if pyEq x y then pyLtList xs ys else pyLt x y
end

/-- Python `min(a, b)`: `b` if `b < a` else `a`; `none` models the
uncaught `TypeError` on an undefined comparison. -/
def pyMin (a b : JVal) : Option JVal :=
  match pyLt b a with
  | some true => some b
  | some false => some a
  | none => none

/-- `os.path.join(directory, filename)` for a non-empty directory with no
trailing slash joined to a plain filename — the only case the tools
exercise. -/
def pathJoin (d f : String) : String := d ++ "/" ++ f

/-- `os.path.splitext(os.path.basename(p))[0]` for a glob match of `*.json`:
the glob guarantees the non-hidden name ends in `.json`, so the stem is the
name with its last five characters removed. -/
def jsonStem (name : String) : String := name.dropRight 5

/-- Geometry filename of the Schema-A tool, src/2D/makePOSCARs.py lines
157-161: `f"{filename_prefix}{sanitized_base_filename}_{sanitized_top_key}`
`_entry{entry_index}_step{step_index}.vasp"`, where the sanitized top key
falls back to `"key_empty"` when sanitisation yields the empty string and
`base` is the stem of the source file. -/
def poscarName2D (pfx base topKey : String) (entryIdx stepIdx : Nat) : String :=
  let skey := if sanitize_filename topKey = "" then "key_empty"
              else sanitize_filename topKey
  pfx ++ sanitize_filename base ++ "_" ++ skey ++ "_entry" ++
    toString entryIdx ++ "_step" ++ toString stepIdx ++ ".vasp"

/-- Label filename of the Schema-A tool, src/2D/writeIDPROP.py lines 110 and
128-129: identical shape, but the prefix is the fixed literal `"POSCAR_"`
(the tool parses no prefix argument). -/
def idpropName2D (base topKey : String) (entryIdx stepIdx : Nat) : String :=
  let skey := if sanitize_filename topKey = "" then "key_empty"
              else sanitize_filename topKey
  "POSCAR_" ++ sanitize_filename base ++ "_" ++ skey ++ "_entry" ++
    toString entryIdx ++ "_step" ++ toString stepIdx ++ ".vasp"

/-- Geometry filename of the Schema-B tool, src/3D/makePOSCARs.py line 158:
`f"{filename_prefix}_jsonNum_{index}_entryNum{idx}_{sanitized_mat_id}.vasp"`
with `index` the 0-based file index and `idx` the 1-based entry index. -/
def poscarName3D (pfx : String) (jsonNum entryNum : Nat) (smatid : String) :
    String :=
  pfx ++ "_jsonNum_" ++ toString jsonNum ++ "_entryNum" ++
    toString entryNum ++ "_" ++ smatid ++ ".vasp"

/-- Label filename of the Schema-B tool, src/3D/writeIDPROP.py line 148:
`f"{filename_prefix}_jsonNum_{index}_entryNum{idx}_{sanitized_mat_id}.vasp"`. -/
def idpropName3D (pfx : String) (jsonNum entryNum : Nat) (smatid : String) :
    String :=
  pfx ++ "_jsonNum_" ++ toString jsonNum ++ "_entryNum" ++
    toString entryNum ++ "_" ++ smatid ++ ".vasp"

/-- Whether a whole string passes the per-character test of the sanitizer's
comprehension when Python iterates a container of strings: `c.isalnum()`
(non-empty and all alphanumeric) or `c in ('_', '-')`. -/
def pyStrSafe (s : String) : Bool :=
  (!s.isEmpty && s.data.all pyIsAlnum) || s == "_" || s == "-"

/-- One element of the sanitizer comprehension applied to a full string
element: kept when safe, otherwise replaced by a single `_`. -/
def sanitizeElem (s : String) : String := if pyStrSafe s then s else "_"

/-- Python string extraction: `some s` for a string, `none` otherwise. -/
def strOf : JVal → Option String
  | .jstr s => some s
  | _ => none

/-- `sanitize_filename` applied to an arbitrary value, as Python executes
`"".join(c if c.isalnum() or c in ('_','-') else '_' for c in name)`:
a string is sanitized character by character; iterating a list yields its
elements (which must all be strings, or the join raises) and a dict yields
its keys, each whole element kept when safe and replaced by one `_`
otherwise; a number, boolean or null is not iterable and raises.  `none`
models the uncaught exception. -/
def pySanitizeVal : JVal → Option String
  | .jstr s => some (sanitize_filename s)
  | .jarr xs =>
      (xs.mapM strOf).map (fun l => String.join (l.map sanitizeElem))
  | .jobj kvs => some (String.join (kvs.map (fun kv => sanitizeElem kv.1)))
  | _ => none

/-- Mat-id resolution of the Schema-B geometry emitter, src/3D/makePOSCARs.py
lines 152-157: `entry.get('data', {}).get('mat_id', f'entry_{idx}')`, a falsy
result replaced by `f'entry_{idx}'`, then `sanitize_filename`.  `none` models
an uncaught exception: `.get` on a non-dict `data` value, or sanitising a
non-iterable mat-id. -/
def matId3Dmake (idx : Nat) (kvs : List (String × JVal)) : Option String :=
  match jlookup "data" kvs with
  | none => pySanitizeVal (.jstr ("entry_" ++ toString idx))
  | some (.jobj dkvs) =>
      match jlookup "mat_id" dkvs with
      | none => pySanitizeVal (.jstr ("entry_" ++ toString idx))
      | some v =>
          if pyFalsy v then pySanitizeVal (.jstr ("entry_" ++ toString idx))
          else pySanitizeVal v
  | some _ => none

/-- Mat-id resolution of the Schema-B label emitter, src/3D/writeIDPROP.py
lines 142-147 — the same expression as the geometry emitter's. -/
def matId3Didprop (idx : Nat) (kvs : List (String × JVal)) : Option String :=
  match jlookup "data" kvs with
  | none => pySanitizeVal (.jstr ("entry_" ++ toString idx))
  | some (.jobj dkvs) =>
      match jlookup "mat_id" dkvs with
      | none => pySanitizeVal (.jstr ("entry_" ++ toString idx))
      | some v =>
          if pyFalsy v then pySanitizeVal (.jstr ("entry_" ++ toString idx))
          else pySanitizeVal v
  | some _ => none

/-- How a run ends early: `exit1` is an explicit `sys.exit(1)`/`exit(1)`,
`crash` an uncaught Python exception (process status 1 as well). -/
inductive Halt where
  | exit1 : Halt
  | crash : Halt
deriving DecidableEq

/-- Observable output of one tool run: geometry paths passed to
`generate_poscar` in order, CSV rows written in order, the final value of
the skip counter, and how the run ended (`none` = ran to completion,
exit status 0). -/
structure Out where
  writes : List String
  rows : List (String × JVal)
  skipped : Nat
  halt : Option Halt

/-- Result of processing one record: a geometry write, a CSV row, a logged
skip, or an uncaught exception. -/
inductive ERes where
  | write : String → ERes
  | row : String → JVal → ERes
  | skip : ERes
  | crash : ERes

/-- One entry of the Schema-B geometry emitter, src/3D/makePOSCARs.py lines
136-165: a missing or falsy `structure` value skips the entry; a failed
reconstruction (the external `Structure.from_dict`, modelled by the oracle
`recon`) skips it; otherwise the mat-id is resolved and the POSCAR is
written to the joined output path.  A non-dict entry raises. -/
def entry3Dmake (recon : JVal → Bool) (pfx outDir : String)
    (jsonNum idx : Nat) (entry : JVal) : ERes :=
  match entry with
  | .jobj kvs =>
      match jlookup "structure" kvs with
      | none => .skip
      | some sv =>
          if pyFalsy sv then .skip
          else if !(recon sv) then .skip
          else match matId3Dmake idx kvs with
               | none => .crash
               | some smat =>
                   .write (pathJoin outDir (poscarName3D pfx jsonNum idx smat))
  | _ => .crash

/-- The entry loop of the Schema-B geometry emitter: entries processed in
order with 1-based indices, geometry writes accumulated until a crash. -/
def entries3Dmake (recon : JVal → Bool) (pfx outDir : String) (jsonNum : Nat) :
    Nat → List JVal → List String × Option Halt
  | _, [] => ([], none)
  | idx, e :: rest =>
      match entry3Dmake recon pfx outDir jsonNum idx e with
      | .write w =>
          let r := entries3Dmake recon pfx outDir jsonNum (idx + 1) rest
          (w :: r.1, r.2)
      | .skip => entries3Dmake recon pfx outDir jsonNum (idx + 1) rest
      | _ => ([], some .crash)

/-- One input file of the Schema-B geometry emitter, src/3D/makePOSCARs.py
lines 113-165: a parse failure exits (load_json line 59), then the output
directory is created (exit on failure, line 74), then `entries` is read with
default `[]` and a falsy value exits (line 131); a non-dict document or a
non-list truthy `entries` raises; otherwise the entries are processed. -/
def file3Dmake (recon : JVal → Bool) (pfx outDir : String) (mkdirOk : Bool)
    (jsonNum : Nat) (doc : Option JVal) : List String × Option Halt :=
  match doc with
  | none => ([], some .exit1)
  | some d =>
      if !mkdirOk then ([], some .exit1)
      else match d with
        | .jobj kvs =>
            let entriesV := (jlookup "entries" kvs).getD (.jarr [])
            if pyFalsy entriesV then ([], some .exit1)
            else match entriesV with
              | .jarr es => entries3Dmake recon pfx outDir jsonNum 1 es
              | _ => ([], some .crash)
        | _ => ([], some .crash)

/-- The file loop of the Schema-B geometry emitter: files processed in order
with 0-based indices, stopping at the first halting file; there is no check
for an empty file list, so an empty glob runs to completion. -/
def files3Dmake (recon : JVal → Bool) (pfx outDir : String) (mkdirOk : Bool) :
    Nat → List (Option JVal) → Out
  | _, [] => ⟨[], [], 0, none⟩
  | i, f :: rest =>
      let r := file3Dmake recon pfx outDir mkdirOk i f
      match r.2 with
      | some h => ⟨r.1, [], 0, some h⟩
      | none =>
          let o := files3Dmake recon pfx outDir mkdirOk (i + 1) rest
          ⟨r.1 ++ o.writes, o.rows, o.skipped, o.halt⟩

/-- Stable insertion into a name-sorted file list: a new file goes after
every existing file whose name is not greater. -/
def insertFile (f : String × Option JVal) :
    List (String × Option JVal) → List (String × Option JVal)
  | [] => [f]
  | g :: gs => if strLt f.1 g.1 then f :: g :: gs else g :: insertFile f gs

/-- `sorted(glob.glob(pattern))` on the files of the input directory,
modelled as a stable sort of the `(name, parse result)` pairs by name;
the names share the directory prefix, so path order is name order. -/
def sortFiles (l : List (String × Option JVal)) :
    List (String × Option JVal) :=
  l.foldl (fun acc f => insertFile f acc) []

/-- `main` of src/3D/makePOSCARs.py: glob the input directory, sort by name,
process the files in order.  `recon` is the external structure capability,
`mkdirOk` whether the output directory exists or can be created, and each
file carries its parse result (`none` = not valid JSON). -/
def main3Dposcars (recon : JVal → Bool) (pfx outDir : String) (mkdirOk : Bool)
    (files : List (String × Option JVal)) : Out :=
  files3Dmake recon pfx outDir mkdirOk 0 ((sortFiles files).map (fun f => f.2))

/-- One entry of the Schema-B label emitter, src/3D/writeIDPROP.py lines
139-161: the mat-id is resolved and the filename derived (lines 142-149,
before the `try`); then `entry['data']['band_gap_dir']` and
`entry['data']['band_gap_ind']` are read — a `KeyError` is caught and
counted as a skip — and the row `(filename, min(direct, indirect))` is
written; an undefined `min` comparison raises `TypeError`, which is not
caught.  The `structure` value is never consulted. -/
def entry3Didprop (pfx : String) (jsonNum idx : Nat) (entry : JVal) : ERes :=
  match entry with
  | .jobj kvs =>
      match matId3Didprop idx kvs with
      | none => .crash
      | some smat =>
          match jlookup "data" kvs with
          | none => .skip
          | some (.jobj dkvs) =>
              match jlookup "band_gap_dir" dkvs with
              | none => .skip
              | some v1 =>
                  match jlookup "band_gap_ind" dkvs with
                  | none => .skip
                  | some v2 =>
                      match pyMin v1 v2 with
                      | none => .crash
                      | some m => .row (idpropName3D pfx jsonNum idx smat) m
          | some _ => .crash
  | _ => .crash

/-- The entry loop of the Schema-B label emitter: rows and the skip counter
accumulated in order until a crash. -/
def entries3Didprop (pfx : String) (jsonNum : Nat) :
    Nat → List JVal → List (String × JVal) × Nat × Option Halt
  | _, [] => ([], 0, none)
  | idx, e :: rest =>
      match entry3Didprop pfx jsonNum idx e with
      | .row f v =>
          let r := entries3Didprop pfx jsonNum (idx + 1) rest
          ((f, v) :: r.1, r.2.1, r.2.2)
      | .skip =>
          let r := entries3Didprop pfx jsonNum (idx + 1) rest
          (r.1, r.2.1 + 1, r.2.2)
      | _ => ([], 0, some .crash)

/-- One input file of the Schema-B label emitter, src/3D/writeIDPROP.py
lines 119-161: a parse failure exits (load_json line 60), an absent or falsy
`entries` exits (line 134); a non-dict document or non-list truthy `entries`
raises; otherwise the entries are processed. -/
def file3Didprop (pfx : String) (jsonNum : Nat) (doc : Option JVal) :
    List (String × JVal) × Nat × Option Halt :=
  match doc with
  | none => ([], 0, some .exit1)
  | some (.jobj kvs) =>
      let entriesV := (jlookup "entries" kvs).getD (.jarr [])
      if pyFalsy entriesV then ([], 0, some .exit1)
      else match entriesV with
        | .jarr es => entries3Didprop pfx jsonNum 1 es
        | _ => ([], 0, some .crash)
  | some _ => ([], 0, some .crash)

/-- The file loop of the Schema-B label emitter: the skip counter runs
across files, rows accumulate, the loop stops at the first halting file;
there is no check for an empty file list. -/
def files3Didprop (pfx : String) : Nat → List (Option JVal) → Out
  | _, [] => ⟨[], [], 0, none⟩
  | i, f :: rest =>
      let r := file3Didprop pfx i f
      match r.2.2 with
      | some h => ⟨[], r.1, r.2.1, some h⟩
      | none =>
          let o := files3Didprop pfx (i + 1) rest
          ⟨o.writes, r.1 ++ o.rows, r.2.1 + o.skipped, o.halt⟩

/-- `main` of src/3D/writeIDPROP.py: open the CSV, glob the input directory,
sort by name, process the files in order. -/
def main3Didprop (pfx : String) (files : List (String × Option JVal)) : Out :=
  files3Didprop pfx 0 ((sortFiles files).map (fun f => f.2))

/-- One step of the Schema-A geometry emitter, src/2D/makePOSCARs.py lines
144-167: a missing or falsy `structure` value skips the step; a failed
reconstruction (oracle `recon`) skips it; otherwise the POSCAR is written to
the joined output path under the derived name.  A non-dict step raises. -/
def step2Dmake (recon : JVal → Bool) (pfx outDir base topKey : String)
    (ei si : Nat) (step : JVal) : ERes :=
  match step with
  | .jobj kvs =>
      match jlookup "structure" kvs with
      | none => .skip
      | some sv =>
          if pyFalsy sv then .skip
          else if !(recon sv) then .skip
          else .write (pathJoin outDir (poscarName2D pfx base topKey ei si))
  | _ => .crash

/-- The step loop of the Schema-A geometry emitter: steps processed in order
with 0-based indices, writes accumulated until a crash. -/
def steps2Dmake (recon : JVal → Bool) (pfx outDir base topKey : String)
    (ei : Nat) : Nat → List JVal → List String × Option Halt
  | _, [] => ([], none)
  | si, s :: rest =>
      match step2Dmake recon pfx outDir base topKey ei si s with
      | .write w =>
          let r := steps2Dmake recon pfx outDir base topKey ei (si + 1) rest
          (w :: r.1, r.2)
      | .skip => steps2Dmake recon pfx outDir base topKey ei (si + 1) rest
      | _ => ([], some .crash)

/-- One entry of the Schema-A geometry emitter, src/2D/makePOSCARs.py lines
137-142: `steps = entry.get('steps', [])`, a falsy value skips the entry;
a truthy non-list raises, as does a non-dict entry. -/
def entry2Dmake (recon : JVal → Bool) (pfx outDir base topKey : String)
    (ei : Nat) (entry : JVal) : List String × Option Halt :=
  match entry with
  | .jobj kvs =>
      let stepsV := (jlookup "steps" kvs).getD (.jarr [])
      if pyFalsy stepsV then ([], none)
      else match stepsV with
        | .jarr ss => steps2Dmake recon pfx outDir base topKey ei 0 ss
        | _ => ([], some .crash)
  | _ => ([], some .crash)

/-- The entry loop of the Schema-A geometry emitter (0-based indices). -/
def entries2Dmake (recon : JVal → Bool) (pfx outDir base topKey : String) :
    Nat → List JVal → List String × Option Halt
  | _, [] => ([], none)
  | ei, e :: rest =>
      let r := entry2Dmake recon pfx outDir base topKey ei e
      match r.2 with
      | some h => (r.1, some h)
      | none =>
          let o := entries2Dmake recon pfx outDir base topKey (ei + 1) rest
          (r.1 ++ o.1, o.2)

/-- The top-level key loop of the Schema-A geometry emitter, src/2D/
makePOSCARs.py lines 130-135: keys in insertion order; `entries =
data[top_key]`, a falsy value skips the group, a truthy non-list raises. -/
def groups2Dmake (recon : JVal → Bool) (pfx outDir base : String) :
    List (String × JVal) → List String × Option Halt
  | [] => ([], none)
  | (k, v) :: rest =>
      if pyFalsy v then groups2Dmake recon pfx outDir base rest
      else match v with
        | .jarr es =>
            let r := entries2Dmake recon pfx outDir base k 0 es
            match r.2 with
            | some h => (r.1, some h)
            | none =>
                let o := groups2Dmake recon pfx outDir base rest
                (r.1 ++ o.1, o.2)
        | _ => ([], some .crash)

/-- One input file of the Schema-A geometry emitter: a parse failure was
logged and the file skipped (load_json returned `None`, lines 56-58 and
126-127); a dict document is traversed by top-level key; an empty list or
empty string iterates nothing; any other document raises when its contents
are indexed. -/
def file2Dmake (recon : JVal → Bool) (pfx outDir : String) (name : String)
    (doc : Option JVal) : List String × Option Halt :=
  match doc with
  | none => ([], none)
  | some (.jobj kvs) => groups2Dmake recon pfx outDir (jsonStem name) kvs
  | some (.jarr []) => ([], none)
  | some (.jstr "") => ([], none)
  | some _ => ([], some .crash)

/-- The file loop of the Schema-A geometry emitter. -/
def files2Dmake (recon : JVal → Bool) (pfx outDir : String) :
    List (String × Option JVal) → Out
  | [] => ⟨[], [], 0, none⟩
  | (n, d) :: rest =>
      let r := file2Dmake recon pfx outDir n d
      match r.2 with
      | some h => ⟨r.1, [], 0, some h⟩
      | none =>
          let o := files2Dmake recon pfx outDir rest
          ⟨r.1 ++ o.writes, o.rows, o.skipped, o.halt⟩

/-- `main` of src/2D/makePOSCARs.py, lines 103-169: create the output
directory (`sys.exit(1)` on failure, line 73), glob and sort the input
files, `sys.exit(1)` when none match (line 119), then process the files. -/
def main2Dposcars (recon : JVal → Bool) (pfx outDir : String) (mkdirOk : Bool)
    (files : List (String × Option JVal)) : Out :=
  if !mkdirOk then ⟨[], [], 0, some .exit1⟩
  else
    let fs := sortFiles files
    if fs.isEmpty then ⟨[], [], 0, some .exit1⟩
    else files2Dmake recon pfx outDir fs

/-- One step of the Schema-A label emitter, src/2D/writeIDPROP.py lines
119-138: `structure_dict = step.get('structure')`, `energy =
step.get('energy')`; `if not structure_dict or energy is None` the step is
counted as skipped; otherwise the row `(derived filename, energy)` is
written with the energy value as loaded, unchecked.  A non-dict step
raises. -/
def step2Didprop (base topKey : String) (ei si : Nat) (step : JVal) : ERes :=
  match step with
  | .jobj kvs =>
      match jlookup "energy" kvs with
      | none => .skip
      | some .jnull => .skip
      | some ev =>
          match jlookup "structure" kvs with
          | none => .skip
          | some sv =>
              if pyFalsy sv then .skip
              else .row (idpropName2D base topKey ei si) ev
  | _ => .crash

/-- The step loop of the Schema-A label emitter: rows and skips accumulated
in order until a crash. -/
def steps2Didprop (base topKey : String) (ei : Nat) :
    Nat → List JVal → List (String × JVal) × Nat × Option Halt
  | _, [] => ([], 0, none)
  | si, s :: rest =>
      match step2Didprop base topKey ei si s with
      | .row f v =>
          let r := steps2Didprop base topKey ei (si + 1) rest
          ((f, v) :: r.1, r.2.1, r.2.2)
      | .skip =>
          let r := steps2Didprop base topKey ei (si + 1) rest
          (r.1, r.2.1 + 1, r.2.2)
      | _ => ([], 0, some .crash)

/-- One entry of the Schema-A label emitter, src/2D/writeIDPROP.py lines
112-117: `steps = entry.get('steps', [])`, falsy skips the entry. -/
def entry2Didprop (base topKey : String) (ei : Nat) (entry : JVal) :
    List (String × JVal) × Nat × Option Halt :=
  match entry with
  | .jobj kvs =>
      let stepsV := (jlookup "steps" kvs).getD (.jarr [])
      if pyFalsy stepsV then ([], 0, none)
      else match stepsV with
        | .jarr ss => steps2Didprop base topKey ei 0 ss
        | _ => ([], 0, some .crash)
  | _ => ([], 0, some .crash)

/-- The entry loop of the Schema-A label emitter (0-based indices). -/
def entries2Didprop (base topKey : String) :
    Nat → List JVal → List (String × JVal) × Nat × Option Halt
  | _, [] => ([], 0, none)
  | ei, e :: rest =>
      let r := entry2Didprop base topKey ei e
      match r.2.2 with
      | some h => (r.1, r.2.1, some h)
      | none =>
          let o := entries2Didprop base topKey (ei + 1) rest
          (r.1 ++ o.1, r.2.1 + o.2.1, o.2.2)

/-- The top-level key loop of the Schema-A label emitter, src/2D/
writeIDPROP.py lines 103-108. -/
def groups2Didprop (base : String) :
    List (String × JVal) → List (String × JVal) × Nat × Option Halt
  | [] => ([], 0, none)
  | (k, v) :: rest =>
      if pyFalsy v then groups2Didprop base rest
      else match v with
        | .jarr es =>
            let r := entries2Didprop base k 0 es
            match r.2.2 with
            | some h => (r.1, r.2.1, some h)
            | none =>
                let o := groups2Didprop base rest
                (r.1 ++ o.1, r.2.1 + o.2.1, o.2.2)
        | _ => ([], 0, some .crash)

/-- One input file of the Schema-A label emitter: a parse failure skips the
file (lines 50-52 and 96-97). -/
def file2Didprop (name : String) (doc : Option JVal) :
    List (String × JVal) × Nat × Option Halt :=
  match doc with
  | none => ([], 0, none)
  | some (.jobj kvs) => groups2Didprop (jsonStem name) kvs
  | some (.jarr []) => ([], 0, none)
  | some (.jstr "") => ([], 0, none)
  | some _ => ([], 0, some .crash)

/-- The file loop of the Schema-A label emitter: the skip counter runs
across all files. -/
def files2Didprop : List (String × Option JVal) → Out
  | [] => ⟨[], [], 0, none⟩
  | (n, d) :: rest =>
      let r := file2Didprop n d
      match r.2.2 with
      | some h => ⟨[], r.1, r.2.1, some h⟩
      | none =>
          let o := files2Didprop rest
          ⟨o.writes, r.1 ++ o.rows, r.2.1 + o.skipped, o.halt⟩

/-- `main` of src/2D/writeIDPROP.py, lines 66-140: ensure the output
directory exists (`os.makedirs` outside any handler, lines 73-74 — failure
is an uncaught exception), open the CSV, glob and sort the input files,
`sys.exit(1)` when none match (line 89), then process the files. -/
def main2Didprop (mkdirOk : Bool) (files : List (String × Option JVal)) :
    Out :=
  if !mkdirOk then ⟨[], [], 0, some .crash⟩
  else
    let fs := sortFiles files
    if fs.isEmpty then ⟨[], [], 0, some .exit1⟩
    else files2Didprop fs

/-- The parsed CLI arguments of src/3D/writeIDPROP.py (`parse_arguments`,
lines 10-41): input directory, output directory (default `"."`), filename
prefix (default `"POSCAR_"`). -/
structure Args3Didprop where
  input : String
  output : String := "."
  pfx : String := "POSCAR_"

/-- The path the Schema-B label emitter opens for its CSV, src/3D/
writeIDPROP.py line 113: the string literal `"./id_prop.csv"`.  The parsed
output directory does not occur in the expression. -/
def csvPath3Didprop (_a : Args3Didprop) : String := "./id_prop.csv"

/-- The path the Schema-A label emitter opens for its CSV, src/2D/
writeIDPROP.py line 76: `os.path.join(output_dir, "id_prop.csv")`. -/
def csvPath2Didprop (outDir : String) : String := pathJoin outDir "id_prop.csv"

/-- Whether a value is a JSON object. -/
def isJObj : JVal → Bool
  | .jobj _ => true
  | _ => false

/-- Whether a record result is a written CSV row. -/
def isRow : ERes → Bool
  | .row _ _ => true
  | _ => false

/-- Whether a record result is a counted skip. -/
def isSkip : ERes → Bool
  | .skip => true
  | _ => false

/-- Both nested band-gap keys of a Schema-B entry are present:
`entry['data']` is a dict holding `band_gap_dir` and `band_gap_ind`. -/
def gapsPresent (kvs : List (String × JVal)) : Bool :=
  match jlookup "data" kvs with
  | some (.jobj dkvs) =>
      (jlookup "band_gap_dir" dkvs).isSome &&
      (jlookup "band_gap_ind" dkvs).isSome
  | _ => false

/-- The value `min(band_gap_dir, band_gap_ind)` of a Schema-B entry, when
both keys are present and the comparison is defined. -/
def gapsMin (kvs : List (String × JVal)) : Option JVal :=
  match jlookup "data" kvs with
  | some (.jobj dkvs) =>
      match jlookup "band_gap_dir" dkvs with
      | none => none
      | some v1 =>
          match jlookup "band_gap_ind" dkvs with
          | none => none
          | some v2 => pyMin v1 v2
  | _ => none

/-- The Schema-A label emitter's disqualification test on the structure
side: `not step.get('structure')`. -/
def structMissing (kvs : List (String × JVal)) : Bool :=
  match jlookup "structure" kvs with
  | none => true
  | some v => pyFalsy v

/-- The Schema-A label emitter's disqualification test on the label side:
`step.get('energy') is None` (absent key or JSON null). -/
def energyAbsent (kvs : List (String × JVal)) : Bool :=
  match jlookup "energy" kvs with
  | none => true
  | some .jnull => true
  | some _ => false

/-- The character class `[A-Za-z0-9_-]` named by the specification, by
code point (95 is `_`, 45 is `-`). -/
def asciiSafeChar (c : Char) : Bool :=
  let n := c.toNat
  (48 ≤ n && n ≤ 57) || (65 ≤ n && n ≤ 90) || (97 ≤ n && n ≤ 122) ||
  n == 95 || n == 45

/-- The Schema-B fatal condition of C3: the loaded dict has no `entries`
key, or its value is the empty list. -/
def entriesMissing (kvs : List (String × JVal)) : Bool :=
  match jlookup "entries" kvs with
  | none => true
  | some (.jarr []) => true
  | _ => false

end AtomGPT

example : AtomGPT.pyMin (.jnum 12 1) (.jnum 8 1) = some (.jnum 8 1) := rfl
example : AtomGPT.pyMin .jnull (.jnum 0 0) = none := rfl
example : AtomGPT.pyMin (.jstr "ab") (.jstr "aa") = some (.jstr "aa") := rfl
example : AtomGPT.sanitize_filename "mp-1" = "mp-1" := rfl
example : AtomGPT.sanitize_filename "a b!" = "a_b_" := rfl
example : AtomGPT.entry3Didprop "POSCAR_" 0 1
    (.jobj [("data", .jobj [("mat_id", .jstr "mp-1"), ("band_gap_dir", .jnum 12 1),
      ("band_gap_ind", .jnum 8 1)]), ("structure", .jobj [("a", .jnum 1 0)])])
    = .row "POSCAR__jsonNum_0_entryNum1_mp-1.vasp" (.jnum 8 1) := rfl
example : AtomGPT.main3Didprop "POSCAR_"
    [("decompressed_000.json", some (.jobj [("entries", .jarr [.jobj
      [("data", .jobj [("mat_id", .jstr "mp-1"), ("band_gap_dir", .jnum 12 1),
        ("band_gap_ind", .jnum 8 1)]), ("structure", .jobj [("a", .jnum 1 0)])]])]))]
    = ⟨[], [("POSCAR__jsonNum_0_entryNum1_mp-1.vasp", .jnum 8 1)], 0, none⟩ := rfl
example : AtomGPT.main2Dposcars (fun _ => true) "POSCAR_" "POSCAR_files" true
    [("sample.json", some (.jobj [("groupA", .jarr [.jobj [("steps", .jarr
      [.jobj [("structure", .jobj [("a", .jnum 1 0)]), ("energy", .jnum (-53) 1)]])]])]))]
    = ⟨["POSCAR_files/POSCAR_sample_groupA_entry0_step0.vasp"], [], 0, none⟩ := rfl
example : AtomGPT.main2Didprop true
    [("sample.json", some (.jobj [("groupA", .jarr [.jobj [("steps", .jarr
      [.jobj [("structure", .jobj [("a", .jnum 1 0)]), ("energy", .jnum (-53) 1)]])]])]))]
    = ⟨[], [("POSCAR_sample_groupA_entry0_step0.vasp", .jnum (-53) 1)], 0, none⟩ := rfl

namespace AtomGPT

/-- C1: the claim that for every record and every user-supplied CLI prefix
the geometry emitter's derived filename equals the label emitter's, in both
tool pairs, is false for the Schema-A (2D) pair: with prefix "X", source
stem "f", group key "g", entry 0, step 0, the geometry emitter derives
"Xf_g_entry0_step0.vasp" while the label emitter derives
"POSCAR_f_g_entry0_step0.vasp" (its prefix is the hardcoded literal). -/
theorem C1_filename_symmetry_cex :
    poscarName2D "X" "f" "g" 0 0 ≠ idpropName2D "f" "g" 0 0 := by decide

/-- C1 (amended): filename symmetry holds for the Schema-B (3D) pair for
every prefix, file index, entry index and entry contents (both the derived
name and the mat-id resolution agree), and for the Schema-A (2D) pair
exactly with the label emitter's hardcoded prefix "POSCAR_". -/
theorem C1_filename_symmetry_amended :
    (∀ (p : String) (j e : Nat) (m : String),
        poscarName3D p j e m = idpropName3D p j e m) ∧
    (∀ (i : Nat) (kvs : List (String × JVal)),
        matId3Dmake i kvs = matId3Didprop i kvs) ∧
    (∀ (b k : String) (ei si : Nat),
        poscarName2D "POSCAR_" b k ei si = idpropName2D b k ei si) :=
  ⟨fun _ _ _ _ => rfl, fun _ _ => rfl, fun _ _ _ _ => rfl⟩

/-- C6: the Schema-B end-to-end scenario.  The input file
decompressed_000.json parses to
`{"entries": [{"data": {"mat_id": "mp-1", "band_gap_dir": 1.2,
"band_gap_ind": 0.8}, "structure": {...valid...}}]}` (numbers are exact
decimals: `jnum 12 1` is 1.2, `jnum 8 1` is 0.8).  With prefix "POSCAR_"
and file index 0 the geometry emitter writes
POSCAR__jsonNum_0_entryNum1_mp-1.vasp (into the default output directory)
and the label emitter writes the single CSV row
(POSCAR__jsonNum_0_entryNum1_mp-1.vasp, 0.8); both runs end with exit
status 0. -/
theorem C6_schemaB_end_to_end :
    main3Dposcars (fun _ => true) "POSCAR_" "POSCAR_files" true
      [("decompressed_000.json", some (.jobj [("entries", .jarr [.jobj
        [("data", .jobj [("mat_id", .jstr "mp-1"),
                         ("band_gap_dir", .jnum 12 1),
                         ("band_gap_ind", .jnum 8 1)]),
         ("structure", .jobj [("lattice", .jnum 1 0)])]])]))]
      = ⟨["POSCAR_files/POSCAR__jsonNum_0_entryNum1_mp-1.vasp"], [], 0, none⟩
    ∧
    main3Didprop "POSCAR_"
      [("decompressed_000.json", some (.jobj [("entries", .jarr [.jobj
        [("data", .jobj [("mat_id", .jstr "mp-1"),
                         ("band_gap_dir", .jnum 12 1),
                         ("band_gap_ind", .jnum 8 1)]),
         ("structure", .jobj [("lattice", .jnum 1 0)])]])]))]
      = ⟨[], [("POSCAR__jsonNum_0_entryNum1_mp-1.vasp", .jnum 8 1)], 0, none⟩ :=
  ⟨rfl, rfl⟩

/-- C9: the Schema-B label emitter opens the fixed path ./id_prop.csv for
every value of the parsed arguments; in particular the CSV path is the same
for any two values of the -o (long form --output) argument. -/
theorem C9_csv_path_fixed :
    (∀ a : Args3Didprop, csvPath3Didprop a = "./id_prop.csv") ∧
    (∀ a b : Args3Didprop, csvPath3Didprop a = csvPath3Didprop b) :=
  ⟨fun _ => rfl, fun _ _ => rfl⟩

end AtomGPT

namespace AtomGPT

/-- A halting file freezes the Schema-B geometry loop: nothing after the
halting list is processed. -/
theorem files3Dmake_append_halt (R : JVal → Bool) (P O : String) (M : Bool) :
    ∀ (xs ys : List (Option JVal)) (i : Nat),
      (files3Dmake R P O M i xs).halt ≠ none →
      files3Dmake R P O M i (xs ++ ys) = files3Dmake R P O M i xs := by
  intro xs
  induction xs with
  | nil => intro ys i h; exact absurd rfl h
  | cons f rest ih =>
      intro ys i h
      cases hf : (file3Dmake R P O M i f).2 with
      | some h2 => simp only [List.cons_append, files3Dmake, hf]
      | none =>
          simp only [List.cons_append, files3Dmake, hf, List.append_eq]
            at h ⊢
          rw [ih ys (i + 1) h]

/-- Composition of the Schema-B geometry loop over an append, when the
first part runs to completion. -/
theorem files3Dmake_append_ok (R : JVal → Bool) (P O : String) (M : Bool) :
    ∀ (xs ys : List (Option JVal)) (i : Nat),
      (files3Dmake R P O M i xs).halt = none →
      files3Dmake R P O M i (xs ++ ys) =
        ⟨(files3Dmake R P O M i xs).writes ++
           (files3Dmake R P O M (i + xs.length) ys).writes,
         (files3Dmake R P O M (i + xs.length) ys).rows,
         (files3Dmake R P O M (i + xs.length) ys).skipped,
         (files3Dmake R P O M (i + xs.length) ys).halt⟩ := by
  intro xs
  induction xs with
  | nil => intro ys i _; simp [files3Dmake]
  | cons f rest ih =>
      intro ys i h
      cases hf : (file3Dmake R P O M i f).2 with
      | some h2 =>
          exfalso
          simp only [files3Dmake, hf] at h
          exact Option.noConfusion h
      | none =>
          simp only [List.cons_append, files3Dmake, hf, List.append_eq]
            at h ⊢
          rw [ih ys (i + 1) h]
          simp only [List.length_cons]
          rw [show i + 1 + rest.length = i + (rest.length + 1) from by omega]
          simp [List.append_assoc]

/-- A halting file freezes the Schema-B label loop. -/
theorem files3Didprop_append_halt (P : String) :
    ∀ (xs ys : List (Option JVal)) (i : Nat),
      (files3Didprop P i xs).halt ≠ none →
      files3Didprop P i (xs ++ ys) = files3Didprop P i xs := by
  intro xs
  induction xs with
  | nil => intro ys i h; exact absurd rfl h
  | cons f rest ih =>
      intro ys i h
      cases hf : (file3Didprop P i f).2.2 with
      | some h2 => simp only [List.cons_append, files3Didprop, hf]
      | none =>
          simp only [List.cons_append, files3Didprop, hf, List.append_eq]
            at h ⊢
          rw [ih ys (i + 1) h]

/-- Composition of the Schema-B label loop over an append, when the first
part runs to completion. -/
theorem files3Didprop_append_ok (P : String) :
    ∀ (xs ys : List (Option JVal)) (i : Nat),
      (files3Didprop P i xs).halt = none →
      files3Didprop P i (xs ++ ys) =
        ⟨(files3Didprop P (i + xs.length) ys).writes,
         (files3Didprop P i xs).rows ++ (files3Didprop P (i + xs.length) ys).rows,
         (files3Didprop P i xs).skipped + (files3Didprop P (i + xs.length) ys).skipped,
         (files3Didprop P (i + xs.length) ys).halt⟩ := by
  intro xs
  induction xs with
  | nil => intro ys i _; simp [files3Didprop]
  | cons f rest ih =>
      intro ys i h
      cases hf : (file3Didprop P i f).2.2 with
      | some h2 =>
          exfalso
          simp only [files3Didprop, hf] at h
          exact Option.noConfusion h
      | none =>
          simp only [List.cons_append, files3Didprop, hf, List.append_eq]
            at h ⊢
          rw [ih ys (i + 1) h]
          simp only [List.length_cons]
          rw [show i + 1 + rest.length = i + (rest.length + 1) from by omega]
          simp [List.append_assoc, Nat.add_assoc]

/-- A Schema-B geometry-emitter file whose `entries` key is absent or maps
to the empty list produces no writes and halts with `sys.exit(1)`. -/
theorem file3Dmake_entriesMissing (R : JVal → Bool) (P O : String) (M : Bool)
    (j : Nat) (kvs : List (String × JVal)) (h : entriesMissing kvs = true) :
    file3Dmake R P O M j (some (.jobj kvs)) = ([], some .exit1) := by
  unfold entriesMissing at h
  cases hl : jlookup "entries" kvs with
  | none => cases M <;> simp [file3Dmake, hl, pyFalsy]
  | some v =>
      rw [hl] at h
      cases v with
      | jarr xs =>
          cases xs with
          | nil => cases M <;> simp [file3Dmake, hl, pyFalsy]
          | cons a l => simp at h
      | jnull => simp at h
      | jbool b => simp at h
      | jnum m e => simp at h
      | jstr s => simp at h
      | jobj o => simp at h

/-- A Schema-B label-emitter file whose `entries` key is absent or maps to
the empty list produces no rows or skips and halts with `sys.exit(1)`. -/
theorem file3Didprop_entriesMissing (P : String) (j : Nat)
    (kvs : List (String × JVal)) (h : entriesMissing kvs = true) :
    file3Didprop P j (some (.jobj kvs)) = ([], 0, some .exit1) := by
  unfold entriesMissing at h
  cases hl : jlookup "entries" kvs with
  | none => simp [file3Didprop, hl, pyFalsy]
  | some v =>
      rw [hl] at h
      cases v with
      | jarr xs =>
          cases xs with
          | nil => simp [file3Didprop, hl, pyFalsy]
          | cons a l => simp at h
      | jnull => simp at h
      | jbool b => simp at h
      | jnum m e => simp at h
      | jstr s => simp at h
      | jobj o => simp at h

end AtomGPT

namespace AtomGPT

/-- C3: in the Schema-B (3D) tools, a successfully loaded file whose
top-level entries field is absent, or maps to the empty list, aborts the
entire batch with exit(1): when the preceding files complete normally, the
run on pre ++ bad :: rest halts with exit1 and equals the run truncated at
the bad file, so the later files in the sorted order are never processed.
Stated over the post-sort file loops of both tools (main is the loop after
sorting). -/
theorem C3_entries_abort_batch
    (R : JVal → Bool) (P O : String) (M : Bool) (Q : String)
    (pre rest : List (Option JVal)) (kvs : List (String × JVal))
    (hem : entriesMissing kvs = true) :
    ((files3Dmake R P O M 0 pre).halt = none →
      (files3Dmake R P O M 0 (pre ++ some (.jobj kvs) :: rest)).halt
          = some .exit1 ∧
      files3Dmake R P O M 0 (pre ++ some (.jobj kvs) :: rest)
          = files3Dmake R P O M 0 (pre ++ [some (.jobj kvs)])) ∧
    ((files3Didprop Q 0 pre).halt = none →
      (files3Didprop Q 0 (pre ++ some (.jobj kvs) :: rest)).halt
          = some .exit1 ∧
      files3Didprop Q 0 (pre ++ some (.jobj kvs) :: rest)
          = files3Didprop Q 0 (pre ++ [some (.jobj kvs)])) := by
  constructor
  · intro hpre
    have hbad : ∀ r2 : List (Option JVal),
        files3Dmake R P O M (0 + pre.length) (some (.jobj kvs) :: r2)
          = ⟨[], [], 0, some .exit1⟩ := by
      intro r2
      simp [files3Dmake, file3Dmake_entriesMissing, hem]
    rw [files3Dmake_append_ok R P O M pre (some (.jobj kvs) :: rest) 0 hpre,
        files3Dmake_append_ok R P O M pre [some (.jobj kvs)] 0 hpre,
        hbad rest, hbad []]
    simp
  · intro hpre
    have hbad : ∀ r2 : List (Option JVal),
        files3Didprop Q (0 + pre.length) (some (.jobj kvs) :: r2)
          = ⟨[], [], 0, some .exit1⟩ := by
      intro r2
      simp [files3Didprop, file3Didprop_entriesMissing, hem]
    rw [files3Didprop_append_ok Q pre (some (.jobj kvs) :: rest) 0 hpre,
        files3Didprop_append_ok Q pre [some (.jobj kvs)] 0 hpre,
        hbad rest, hbad []]
    simp

/-- C3 witness: a two-file batch whose first file has no entries key halts
both Schema-B tools with exit(1), the second file unprocessed. -/
theorem C3_entries_abort_batch_witness :
    (files3Dmake (fun _ => true) "POSCAR_" "POSCAR_files" true 0
        ([] ++ some (.jobj []) :: [some (.jobj [])])).halt = some .exit1 ∧
    (files3Didprop "POSCAR_" 0
        ([] ++ some (.jobj []) :: [some (.jobj [])])).halt = some .exit1 :=
  ⟨((C3_entries_abort_batch (fun _ => true) "POSCAR_" "POSCAR_files" true
      "POSCAR_" [] [some (.jobj [])] [] rfl).1 rfl).1,
   ((C3_entries_abort_batch (fun _ => true) "POSCAR_" "POSCAR_files" true
      "POSCAR_" [] [some (.jobj [])] [] rfl).2 rfl).1⟩

end AtomGPT

namespace AtomGPT

/-- C7 counterexample: the claim's "row iff both band-gap keys are present"
fails when both keys are present but the two values are incomparable.  For
the entry with data band_gap_dir: null and band_gap_ind: 0 (and a structure
present), both keys are present, yet Python's min raises an uncaught
TypeError: no row is written and the whole run dies with an exception. -/
theorem C7_row_iff_keys_cex :
    gapsPresent [("data", .jobj [("band_gap_dir", .jnull),
                                 ("band_gap_ind", .jnum 0 0)]),
                 ("structure", .jobj [("a", .jnum 1 0)])] = true ∧
    isRow (entry3Didprop "POSCAR_" 0 1
      (.jobj [("data", .jobj [("band_gap_dir", .jnull),
                              ("band_gap_ind", .jnum 0 0)]),
              ("structure", .jobj [("a", .jnum 1 0)])])) = false ∧
    main3Didprop "POSCAR_"
      [("decompressed_000.json", some (.jobj [("entries", .jarr
        [.jobj [("data", .jobj [("band_gap_dir", .jnull),
                                ("band_gap_ind", .jnum 0 0)]),
                ("structure", .jobj [("a", .jnum 1 0)])]])]))]
      = ⟨[], [], 0, some .crash⟩ :=
  ⟨rfl, rfl, rfl⟩

/-- C7 (amended): a Schema-B dict entry yields a CSV row exactly when its
mat-id resolves, both nested band-gap keys are present, and Python's min of
the two values is defined; an entry whose mat-id resolves but which misses
a band-gap key (or the data dict) is skipped (counter + 1); and in the
three-entry scenario with one entry missing band_gap_ind the final counter
is 1 and the CSV holds exactly the two rows with min labels. -/
theorem C7_row_iff_keys_amended :
    (∀ (P : String) (j i : Nat) (kvs : List (String × JVal)),
        isRow (entry3Didprop P j i (.jobj kvs))
          = ((matId3Didprop i kvs).isSome && gapsPresent kvs &&
             (gapsMin kvs).isSome)) ∧
    (∀ (P : String) (j i : Nat) (kvs : List (String × JVal)),
        (matId3Didprop i kvs).isSome = true → gapsPresent kvs = false →
        entry3Didprop P j i (.jobj kvs) = .skip) ∧
    main3Didprop "POSCAR_"
      [("decompressed_000.json", some (.jobj [("entries", .jarr
        [.jobj [("data", .jobj [("mat_id", .jstr "a"),
                                ("band_gap_dir", .jnum 12 1),
                                ("band_gap_ind", .jnum 8 1)])],
         .jobj [("data", .jobj [("mat_id", .jstr "b"),
                                ("band_gap_dir", .jnum 1 0)])],
         .jobj [("data", .jobj [("mat_id", .jstr "c"),
                                ("band_gap_dir", .jnum 2 0),
                                ("band_gap_ind", .jnum 3 0)])]])]))]
      = ⟨[], [("POSCAR__jsonNum_0_entryNum1_a.vasp", .jnum 8 1),
              ("POSCAR__jsonNum_0_entryNum3_c.vasp", .jnum 2 0)], 1, none⟩ := by
  refine ⟨?_, ?_, rfl⟩
  · intro P j i kvs
    unfold entry3Didprop isRow gapsPresent gapsMin
    cases hm : matId3Didprop i kvs with
    | none =>
        cases hd : jlookup "data" kvs with
        | none => simp [hm, hd]
        | some dv => cases dv <;> simp [hm, hd]
    | some smat =>
        cases hd : jlookup "data" kvs with
        | none => simp [hm, hd]
        | some dv =>
            cases dv
            case jobj dkvs =>
              cases h1 : jlookup "band_gap_dir" dkvs with
              | none => simp [hm, hd, h1]
              | some v1 =>
                  cases h2 : jlookup "band_gap_ind" dkvs with
                  | none => simp [hm, hd, h1, h2]
                  | some v2 =>
                      cases hmin : pyMin v1 v2 <;>
                        simp [hm, hd, h1, h2, hmin]
            all_goals simp [hm, hd]
  · intro P j i kvs hm hg
    unfold gapsPresent at hg
    unfold entry3Didprop
    cases hmi : matId3Didprop i kvs with
    | none => rw [hmi] at hm; simp at hm
    | some smat =>
        cases hd : jlookup "data" kvs with
        | none => simp [hmi, hd]
        | some dv =>
            cases dv
            case jobj dkvs =>
              cases h1 : jlookup "band_gap_dir" dkvs with
              | none => simp [hmi, hd, h1]
              | some v1 =>
                  cases h2 : jlookup "band_gap_ind" dkvs with
                  | none => simp [hmi, hd, h1, h2]
                  | some v2 =>
                      exfalso
                      rw [hd] at hg
                      simp [h1, h2] at hg
            all_goals
              exfalso
              unfold matId3Didprop at hmi
              rw [hd] at hmi
              simp at hmi

/-- C7 witness: an entry with a resolvable mat-id and a data dict missing
band_gap_ind is skipped. -/
theorem C7_row_iff_keys_witness :
    entry3Didprop "POSCAR_" 0 1
      (.jobj [("data", .jobj [("mat_id", .jstr "m"),
                              ("band_gap_dir", .jnum 1 0)])]) = .skip :=
  C7_row_iff_keys_amended.2.1 "POSCAR_" 0 1
    [("data", .jobj [("mat_id", .jstr "m"), ("band_gap_dir", .jnum 1 0)])]
    rfl rfl

end AtomGPT

namespace AtomGPT

/-- C8 counterexample: a present but non-numeric label does not disqualify
the record.  A Schema-A step with a structure and the string energy "oops"
gets a CSV row with that string as its label, and the run completes
normally; the label value is not a number. -/
theorem C8_label_type_cex :
    main2Didprop true
      [("f.json", some (.jobj [("g", .jarr [.jobj [("steps", .jarr
        [.jobj [("structure", .jobj [("a", .jnum 1 0)]),
                ("energy", .jstr "oops")]])]])]))]
      = ⟨[], [("POSCAR_f_g_entry0_step0.vasp", .jstr "oops")], 0, none⟩ ∧
    (∀ (m : Int) (e : Nat), JVal.jstr "oops" ≠ JVal.jnum m e) :=
  ⟨rfl, fun _ _ h => JVal.noConfusion h⟩

/-- C8 (amended): an absent label disqualifies the record — the Schema-A
label emitter skips a step exactly when the structure is missing/falsy or
the energy is absent or null — but a present label value is never
type-checked: any non-null energy is written as-is, and the Schema-B
emitter writes min of the two band-gap values whenever Python's comparison
is defined, for example two strings. -/
theorem C8_label_type_amended :
    (∀ (B K : String) (ei si : Nat) (kvs : List (String × JVal)),
        isSkip (step2Didprop B K ei si (.jobj kvs))
          = (structMissing kvs || energyAbsent kvs)) ∧
    (∀ (B K : String) (ei si : Nat) (kvs : List (String × JVal))
        (sv ev : JVal),
        jlookup "structure" kvs = some sv → pyFalsy sv = false →
        jlookup "energy" kvs = some ev → ev ≠ .jnull →
        step2Didprop B K ei si (.jobj kvs)
          = .row (idpropName2D B K ei si) ev) ∧
    entry3Didprop "POSCAR_" 0 1
      (.jobj [("data", .jobj [("mat_id", .jstr "mp-9"),
                              ("band_gap_dir", .jstr "x"),
                              ("band_gap_ind", .jstr "y")])])
      = .row "POSCAR__jsonNum_0_entryNum1_mp-9.vasp" (.jstr "x") := by
  refine ⟨?_, ?_, rfl⟩
  · intro B K ei si kvs
    unfold step2Didprop isSkip structMissing energyAbsent
    cases he : jlookup "energy" kvs with
    | none =>
        cases hs : jlookup "structure" kvs with
        | none => simp [he, hs]
        | some sv => simp [he, hs]
    | some ev =>
        cases hs : jlookup "structure" kvs with
        | none => cases ev <;> simp [he, hs]
        | some sv =>
            cases hf : pyFalsy sv with
            | true => cases ev <;> simp [he, hs, hf]
            | false => cases ev <;> simp [he, hs, hf]
  · intro B K ei si kvs sv ev hs hf he hne
    unfold step2Didprop
    cases ev
    case jnull => exact absurd rfl hne
    all_goals simp [he, hs, hf]

/-- C8 witness: a step with a truthy structure and the string energy "bad"
yields the row with that string label. -/
theorem C8_label_type_witness :
    step2Didprop "f" "g" 0 0
      (.jobj [("structure", .jobj [("a", .jnum 1 0)]),
              ("energy", .jstr "bad")])
      = .row (idpropName2D "f" "g" 0 0) (.jstr "bad") :=
  C8_label_type_amended.2.1 "f" "g" 0 0
    [("structure", .jobj [("a", .jnum 1 0)]), ("energy", .jstr "bad")]
    (.jobj [("a", .jnum 1 0)]) (.jstr "bad") rfl rfl rfl
    (fun h => JVal.noConfusion h)

/-- C10 counterexample: the claim's "a CSV row for every entry having both
band-gap keys even without a structure" fails when the two present values
are incomparable: for data band_gap_dir: null, band_gap_ind: 1 and no
structure key, the label emitter crashes on min and writes no row. -/
theorem C10_csv_not_subset_cex :
    gapsPresent [("data", .jobj [("band_gap_dir", .jnull),
                                 ("band_gap_ind", .jnum 1 0)])] = true ∧
    jlookup "structure" [("data", .jobj [("band_gap_dir", .jnull),
                                         ("band_gap_ind", .jnum 1 0)])]
      = none ∧
    main3Didprop "POSCAR_"
      [("d.json", some (.jobj [("entries", .jarr
        [.jobj [("data", .jobj [("band_gap_dir", .jnull),
                                ("band_gap_ind", .jnum 1 0)])]])]))]
      = ⟨[], [], 0, some .crash⟩ :=
  ⟨rfl, rfl, rfl⟩

/-- C10 (amended): a Schema-B entry with both band-gap keys present,
comparable values and a resolvable mat-id gets a CSV row from the label
emitter even with no structure key, while the geometry emitter skips such
an entry; concretely, one structureless entry produces a CSV whose single
filename is not among the geometry emitter's writes (which are empty), so
the CSV's filenames are not a subset of the written geometry files. -/
theorem C10_csv_not_subset_amended :
    (∀ (P : String) (j i : Nat) (kvs dkvs : List (String × JVal))
        (v1 v2 m : JVal) (smat : String),
        jlookup "structure" kvs = none →
        jlookup "data" kvs = some (.jobj dkvs) →
        jlookup "band_gap_dir" dkvs = some v1 →
        jlookup "band_gap_ind" dkvs = some v2 →
        pyMin v1 v2 = some m →
        matId3Didprop i kvs = some smat →
        entry3Didprop P j i (.jobj kvs) = .row (idpropName3D P j i smat) m ∧
        (∀ (R : JVal → Bool) (O : String),
            entry3Dmake R P O j i (.jobj kvs) = .skip)) ∧
    main3Dposcars (fun _ => true) "POSCAR_" "POSCAR_files" true
      [("d.json", some (.jobj [("entries", .jarr
        [.jobj [("data", .jobj [("mat_id", .jstr "z"),
                                ("band_gap_dir", .jnum 5 1),
                                ("band_gap_ind", .jnum 7 1)])]])]))]
      = ⟨[], [], 0, none⟩ ∧
    main3Didprop "POSCAR_"
      [("d.json", some (.jobj [("entries", .jarr
        [.jobj [("data", .jobj [("mat_id", .jstr "z"),
                                ("band_gap_dir", .jnum 5 1),
                                ("band_gap_ind", .jnum 7 1)])]])]))]
      = ⟨[], [("POSCAR__jsonNum_0_entryNum1_z.vasp", .jnum 5 1)], 0, none⟩ := by
  refine ⟨?_, rfl, rfl⟩
  intro P j i kvs dkvs v1 v2 m smat hstruct hd h1 h2 hmin hmi
  constructor
  · unfold entry3Didprop
    simp [hmi, hd, h1, h2, hmin]
  · intro R O
    unfold entry3Dmake
    simp [hstruct]

/-- C10 witness: the structureless entry with mat-id z and band gaps 0.5
and 0.7 yields the row (derived name, 0.5) from the label emitter and a
skip from the geometry emitter. -/
theorem C10_csv_not_subset_witness :
    entry3Didprop "POSCAR_" 0 1
      (.jobj [("data", .jobj [("mat_id", .jstr "z"),
                              ("band_gap_dir", .jnum 5 1),
                              ("band_gap_ind", .jnum 7 1)])])
      = .row (idpropName3D "POSCAR_" 0 1 "z") (.jnum 5 1) ∧
    entry3Dmake (fun _ => true) "POSCAR_" "POSCAR_files" 0 1
      (.jobj [("data", .jobj [("mat_id", .jstr "z"),
                              ("band_gap_dir", .jnum 5 1),
                              ("band_gap_ind", .jnum 7 1)])])
      = .skip := by
  have h := C10_csv_not_subset_amended.1 "POSCAR_" 0 1
    [("data", .jobj [("mat_id", .jstr "z"),
                     ("band_gap_dir", .jnum 5 1),
                     ("band_gap_ind", .jnum 7 1)])]
    [("mat_id", .jstr "z"), ("band_gap_dir", .jnum 5 1),
     ("band_gap_ind", .jnum 7 1)]
    (.jnum 5 1) (.jnum 7 1) (.jnum 5 1) "z" rfl rfl rfl rfl rfl rfl
  exact ⟨h.1, h.2 (fun _ => true) "POSCAR_files"⟩

end AtomGPT

namespace AtomGPT

/-- The characters of a sanitized string are the per-character images. -/
theorem sanitize_filename_data (s : String) :
    (sanitize_filename s).data = s.data.map sanitizeChar := rfl

/-- Sanitising a character twice is the same as once: a kept character is
kept again, and the replacement `_` is itself kept. -/
theorem sanitizeChar_idem (c : Char) :
    sanitizeChar (sanitizeChar c) = sanitizeChar c := by
  by_cases h : (pyIsAlnum c || c == '_' || c == '-') = true
  · have hc : sanitizeChar c = c := by unfold sanitizeChar; rw [if_pos h]
    rw [hc]; exact hc
  · have hc : sanitizeChar c = '_' := by unfold sanitizeChar; rw [if_neg h]
    rw [hc]; decide

/-- A sanitized character below U+0080 lies in `[A-Za-z0-9_-]`. -/
theorem asciiSafe_sanitizeChar (c : Char) (hle : c.toNat ≤ 127) :
    asciiSafeChar (sanitizeChar c) = true := by
  by_cases h : (pyIsAlnum c || c == '_' || c == '-') = true
  · have hc : sanitizeChar c = c := by unfold sanitizeChar; rw [if_pos h]
    rw [hc]
    simp only [Bool.or_eq_true, beq_iff_eq, or_assoc] at h
    rcases h with h | h | h
    · simp only [pyIsAlnum, Bool.or_eq_true, Bool.and_eq_true,
        decide_eq_true_eq, beq_iff_eq, or_assoc] at h
      simp only [asciiSafeChar, Bool.or_eq_true, Bool.and_eq_true,
        decide_eq_true_eq, beq_iff_eq, or_assoc]
      omega
    · subst h; decide
    · subst h; decide
  · have hc : sanitizeChar c = '_' := by unfold sanitizeChar; rw [if_neg h]
    rw [hc]; decide

end AtomGPT

namespace AtomGPT

/-- C4 counterexample: the sanitizer keeps every character Python classes
alphanumeric, which is larger than `[A-Za-z0-9_-]`: the Latin small letter
e with acute (U+00E9) satisfies Python's `str.isalnum`, so `sanitize("é")`
is `"é"`, whose character is not in the claimed ASCII class. -/
theorem C4_sanitizer_cex :
    sanitize_filename "é" = "é" ∧
    (sanitize_filename "é").data.all asciiSafeChar = false :=
  ⟨rfl, rfl⟩

/-- C4 (amended): the sanitizer is total and idempotent; every character of
its output is Python-alphanumeric, `_` or `-` (for an ASCII input this
means the class `[A-Za-z0-9_-]`); the output is empty exactly for the
empty input; and a group key that sanitizes to the empty string yields the
fixed placeholder `key_empty` in the derived filename, never an empty
segment. -/
theorem C4_sanitizer_amended :
    (∀ s, sanitize_filename (sanitize_filename s) = sanitize_filename s) ∧
    (∀ (s : String) (c : Char), c ∈ (sanitize_filename s).data →
        (pyIsAlnum c || c == '_' || c == '-') = true) ∧
    (∀ s : String, s.data.all (fun c => decide (c.toNat ≤ 127)) = true →
        (sanitize_filename s).data.all asciiSafeChar = true) ∧
    (∀ s : String, sanitize_filename s = "" ↔ s = "") ∧
    (∀ (pfx base key : String) (ei si : Nat), sanitize_filename key = "" →
        poscarName2D pfx base key ei si
          = pfx ++ sanitize_filename base ++ "_" ++ "key_empty" ++
            "_entry" ++ toString ei ++ "_step" ++ toString si ++ ".vasp") := by
  refine ⟨?_, ?_, ?_, ?_, ?_⟩
  · intro s
    show String.mk ((s.data.map sanitizeChar).map sanitizeChar)
        = String.mk (s.data.map sanitizeChar)
    rw [List.map_map]
    congr 1
    simp [Function.comp_def, sanitizeChar_idem]
  · intro s c h
    rw [sanitize_filename_data] at h
    obtain ⟨c0, _, rfl⟩ := List.mem_map.mp h
    by_cases h0 : (pyIsAlnum c0 || c0 == '_' || c0 == '-') = true
    · have hc : sanitizeChar c0 = c0 := by unfold sanitizeChar; rw [if_pos h0]
      rw [hc]; exact h0
    · have hc : sanitizeChar c0 = '_' := by unfold sanitizeChar; rw [if_neg h0]
      rw [hc]; decide
  · intro s hall
    rw [sanitize_filename_data, List.all_map]
    rw [List.all_eq_true] at hall ⊢
    intro c hc
    have hle : c.toNat ≤ 127 := by simpa using hall c hc
    simpa [Function.comp] using asciiSafe_sanitizeChar c hle
  · intro s
    constructor
    · intro h
      have hd : s.data.map sanitizeChar = [] := by
        rw [← sanitize_filename_data, h]
      have hnil : s.data = [] := by
        cases hs : s.data with
        | nil => rfl
        | cons a l => rw [hs] at hd; simp at hd
      cases s with
      | mk d => cases hnil; rfl
    · intro h; rw [h]; rfl
  · intro pfx base key ei si h
    unfold poscarName2D
    rw [h]
    simp

/-- C4 witness: the amended properties at concrete inputs — idempotence at
"x", the character class at the underscore produced from "a!", the ASCII
bound at "a", emptiness at "", and the placeholder for the empty group
key. -/
theorem C4_sanitizer_witness :
    sanitize_filename (sanitize_filename "x") = sanitize_filename "x" ∧
    (pyIsAlnum '_' || '_' == '_' || '_' == '-') = true ∧
    (sanitize_filename "a").data.all asciiSafeChar = true ∧
    sanitize_filename "" = "" ∧
    poscarName2D "P" "b" "" 0 0
      = "P" ++ sanitize_filename "b" ++ "_" ++ "key_empty" ++ "_entry" ++
        toString 0 ++ "_step" ++ toString 0 ++ ".vasp" :=
  ⟨C4_sanitizer_amended.1 "x",
   C4_sanitizer_amended.2.1 "a!" '_' (by decide),
   C4_sanitizer_amended.2.2.1 "a" (by decide),
   (C4_sanitizer_amended.2.2.2.1 "").mpr rfl,
   C4_sanitizer_amended.2.2.2.2 "P" "b" "" 0 0 rfl⟩

end AtomGPT

namespace AtomGPT

/-- C2 counterexample: the claim fails for the 3D (Schema-B) variants.  In
a three-file batch whose second file is not valid JSON, the Schema-B
geometry emitter writes the outputs of file 1, then load_json calls
exit(1): processing does not continue to file 3 and the run exits
non-zero. -/
theorem C2_malformed_skip_cex :
    main3Dposcars (fun _ => true) "POSCAR_" "out" true
      [("a.json", some (.jobj [("entries", .jarr [.jobj
          [("structure", .jobj [("x", .jnum 1 0)]),
           ("data", .jobj [("mat_id", .jstr "q")])]])])),
       ("b.json", none),
       ("c.json", some (.jobj [("entries", .jarr [.jobj
          [("structure", .jobj [("x", .jnum 1 0)]),
           ("data", .jobj [("mat_id", .jstr "r")])]])]))]
      = ⟨["out/POSCAR__jsonNum_0_entryNum1_q.vasp"], [], 0, some .exit1⟩ :=
  rfl

/-- C2 (amended): a malformed JSON file is logged and skipped with
processing continuing and a zero exit only in the 2D (Schema-A) tools; the
3D (Schema-B) tools abort the whole batch with exit(1) at the first
malformed file.  Shown on a three-file batch whose middle file is not
valid JSON: both 2D tools produce the outputs of files 1 and 3 and finish
normally, while both 3D tools stop after file 1 with exit status 1. -/
theorem C2_malformed_skip_amended :
    main2Dposcars (fun _ => true) "POSCAR_" "out" true
      [("a.json", some (.jobj [("g", .jarr [.jobj [("steps", .jarr
          [.jobj [("structure", .jobj [("x", .jnum 1 0)]),
                  ("energy", .jnum 1 0)]])]])])),
       ("b.json", none),
       ("c.json", some (.jobj [("h", .jarr [.jobj [("steps", .jarr
          [.jobj [("structure", .jobj [("x", .jnum 1 0)]),
                  ("energy", .jnum 2 0)]])]])]))]
      = ⟨["out/POSCAR_a_g_entry0_step0.vasp",
          "out/POSCAR_c_h_entry0_step0.vasp"], [], 0, none⟩ ∧
    main2Didprop true
      [("a.json", some (.jobj [("g", .jarr [.jobj [("steps", .jarr
          [.jobj [("structure", .jobj [("x", .jnum 1 0)]),
                  ("energy", .jnum 1 0)]])]])])),
       ("b.json", none),
       ("c.json", some (.jobj [("h", .jarr [.jobj [("steps", .jarr
          [.jobj [("structure", .jobj [("x", .jnum 1 0)]),
                  ("energy", .jnum 2 0)]])]])]))]
      = ⟨[], [("POSCAR_a_g_entry0_step0.vasp", .jnum 1 0),
              ("POSCAR_c_h_entry0_step0.vasp", .jnum 2 0)], 0, none⟩ ∧
    main3Dposcars (fun _ => true) "POSCAR_" "out" true
      [("a.json", some (.jobj [("entries", .jarr [.jobj
          [("structure", .jobj [("x", .jnum 1 0)]),
           ("data", .jobj [("mat_id", .jstr "s")])]])])),
       ("b.json", none),
       ("c.json", some (.jobj [("entries", .jarr [.jobj
          [("structure", .jobj [("x", .jnum 1 0)]),
           ("data", .jobj [("mat_id", .jstr "t")])]])]))]
      = ⟨["out/POSCAR__jsonNum_0_entryNum1_s.vasp"], [], 0, some .exit1⟩ ∧
    main3Didprop "POSCAR_"
      [("a.json", some (.jobj [("entries", .jarr [.jobj
          [("data", .jobj [("mat_id", .jstr "s"),
                           ("band_gap_dir", .jnum 1 0),
                           ("band_gap_ind", .jnum 2 0)])]])])),
       ("b.json", none),
       ("c.json", some (.jobj [("entries", .jarr [.jobj
          [("data", .jobj [("mat_id", .jstr "t"),
                           ("band_gap_dir", .jnum 3 0),
                           ("band_gap_ind", .jnum 4 0)])]])]))]
      = ⟨[], [("POSCAR__jsonNum_0_entryNum1_s.vasp", .jnum 1 0)], 0,
          some .exit1⟩ :=
  ⟨rfl, rfl, rfl, rfl⟩

end AtomGPT

namespace AtomGPT

/-- A well-shaped Schema-A steps value: falsy (the loop body never runs),
or a list of dicts. -/
def wfStepsVal (v : JVal) : Bool :=
  pyFalsy v ||
  (match v with
   | .jarr ss => ss.all isJObj
   | _ => false)

/-- A well-shaped Schema-A entry: a dict whose steps value (default `[]`)
is a well-shaped steps value. -/
def wfEntry (e : JVal) : Bool :=
  match e with
  | .jobj kvs => wfStepsVal ((jlookup "steps" kvs).getD (.jarr []))
  | _ => false

/-- A well-shaped Schema-A group value: falsy, or a list of well-shaped
entries. -/
def wfGroupVal (v : JVal) : Bool :=
  pyFalsy v ||
  (match v with
   | .jarr es => es.all wfEntry
   | _ => false)

/-- A well-shaped Schema-A document: a dict all of whose group values are
well shaped. -/
def wfDoc2D (d : JVal) : Bool :=
  match d with
  | .jobj kvs => kvs.all (fun kv => wfGroupVal kv.2)
  | _ => false

/-- A well-shaped input file: malformed (skipped), or parsing to a
well-shaped Schema-A document. -/
def wfFile2D (f : String × Option JVal) : Bool :=
  match f.2 with
  | none => true
  | some d => wfDoc2D d

/-- A value satisfying isJObj is an object. -/
theorem isJObj_exists (v : JVal) (h : isJObj v = true) :
    ∃ kvs, v = .jobj kvs := by
  cases v
  case jobj kvs => exact ⟨kvs, rfl⟩
  all_goals simp [isJObj] at h

/-- A dict step of the Schema-A geometry emitter is skipped or written,
never a crash. -/
theorem step2Dmake_jobj (R : JVal → Bool) (P O B K : String) (ei si : Nat)
    (kvs : List (String × JVal)) :
    step2Dmake R P O B K ei si (.jobj kvs) = .skip ∨
    step2Dmake R P O B K ei si (.jobj kvs)
      = .write (pathJoin O (poscarName2D P B K ei si)) := by
  cases hs : jlookup "structure" kvs with
  | none => left; simp [step2Dmake, hs]
  | some sv =>
      cases hf : pyFalsy sv with
      | true => left; simp [step2Dmake, hs, hf]
      | false =>
          cases hr : R sv with
          | true => right; simp [step2Dmake, hs, hf, hr]
          | false => left; simp [step2Dmake, hs, hf, hr]

/-- The Schema-A geometry step loop never halts on a list of dicts. -/
theorem steps2Dmake_ok (R : JVal → Bool) (P O B K : String) (ei : Nat) :
    ∀ (ss : List JVal) (si : Nat), ss.all isJObj = true →
      (steps2Dmake R P O B K ei si ss).2 = none := by
  intro ss
  induction ss with
  | nil => intro si _; rfl
  | cons s rest ih =>
      intro si h
      rw [List.all_cons, Bool.and_eq_true] at h
      obtain ⟨kvs, rfl⟩ := isJObj_exists s h.1
      rcases step2Dmake_jobj R P O B K ei si kvs with hc | hc <;>
        simp [steps2Dmake, hc, ih (si + 1) h.2]

/-- A well-shaped entry never halts the Schema-A geometry emitter. -/
theorem entry2Dmake_ok (R : JVal → Bool) (P O B K : String) (ei : Nat)
    (e : JVal) (h : wfEntry e = true) :
    (entry2Dmake R P O B K ei e).2 = none := by
  cases e
  case jobj kvs =>
    have h2 : wfStepsVal ((jlookup "steps" kvs).getD (.jarr [])) = true := h
    cases hv : (jlookup "steps" kvs).getD (.jarr []) with
    | jarr ss =>
        rw [hv] at h2
        cases ss with
        | nil => simp [entry2Dmake, hv, pyFalsy]
        | cons s rest =>
            have hall : (s :: rest).all isJObj = true := by
              simpa [wfStepsVal, pyFalsy] using h2
            simp [entry2Dmake, hv, pyFalsy,
              steps2Dmake_ok R P O B K ei (s :: rest) 0 hall]
    | jnull => simp [entry2Dmake, hv, pyFalsy]
    | jbool b =>
        rw [hv] at h2
        cases b with
        | false => simp [entry2Dmake, hv, pyFalsy]
        | true => simp [wfStepsVal, pyFalsy] at h2
    | jnum m e2 =>
        rw [hv] at h2
        simp only [wfStepsVal, pyFalsy, Bool.or_false] at h2
        simp [entry2Dmake, hv, pyFalsy, h2]
    | jstr s2 =>
        rw [hv] at h2
        simp only [wfStepsVal, pyFalsy, Bool.or_false] at h2
        simp [entry2Dmake, hv, pyFalsy, h2]
    | jobj o =>
        rw [hv] at h2
        simp only [wfStepsVal, pyFalsy, Bool.or_false] at h2
        simp [entry2Dmake, hv, pyFalsy, h2]
  all_goals simp [wfEntry] at h

/-- The Schema-A geometry entry loop never halts on well-shaped entries. -/
theorem entries2Dmake_ok (R : JVal → Bool) (P O B K : String) :
    ∀ (es : List JVal) (ei : Nat), es.all wfEntry = true →
      (entries2Dmake R P O B K ei es).2 = none := by
  intro es
  induction es with
  | nil => intro ei _; rfl
  | cons e rest ih =>
      intro ei h
      rw [List.all_cons, Bool.and_eq_true] at h
      simp [entries2Dmake, entry2Dmake_ok R P O B K ei e h.1,
        ih (ei + 1) h.2]

/-- The Schema-A geometry group loop never halts on a well-shaped dict. -/
theorem groups2Dmake_ok (R : JVal → Bool) (P O B : String) :
    ∀ (kvs : List (String × JVal)),
      kvs.all (fun kv => wfGroupVal kv.2) = true →
      (groups2Dmake R P O B kvs).2 = none := by
  intro kvs
  induction kvs with
  | nil => intro _; rfl
  | cons kv rest ih =>
      intro h
      rw [List.all_cons, Bool.and_eq_true] at h
      obtain ⟨h1, h2⟩ := h
      obtain ⟨k, v⟩ := kv
      cases hfal : pyFalsy v with
      | true => simp [groups2Dmake, hfal, ih h2]
      | false =>
          unfold wfGroupVal at h1
          rw [hfal] at h1
          simp only [Bool.false_or] at h1
          cases v with
          | jarr es =>
              simp only at h1
              simp [groups2Dmake, hfal,
                entries2Dmake_ok R P O B k es 0 h1, ih h2]
          | jnull => simp at h1
          | jbool b => simp at h1
          | jnum m e2 => simp at h1
          | jstr s2 => simp at h1
          | jobj o => simp at h1

/-- A well-shaped file never halts the Schema-A geometry emitter. -/
theorem file2Dmake_ok (R : JVal → Bool) (P O : String) (n : String)
    (d : Option JVal) (h : wfFile2D (n, d) = true) :
    (file2Dmake R P O n d).2 = none := by
  cases d with
  | none => rfl
  | some v =>
      have h2 : wfDoc2D v = true := h
      cases v with
      | jobj kvs =>
          have h3 : kvs.all (fun kv => wfGroupVal kv.2) = true := h2
          simp [file2Dmake, groups2Dmake_ok R P O (jsonStem n) kvs h3]
      | jnull => simp [wfDoc2D] at h2
      | jbool b => simp [wfDoc2D] at h2
      | jnum m e2 => simp [wfDoc2D] at h2
      | jstr s2 => simp [wfDoc2D] at h2
      | jarr xs => simp [wfDoc2D] at h2

/-- The Schema-A geometry file loop runs to completion on well-shaped
files. -/
theorem files2Dmake_ok (R : JVal → Bool) (P O : String) :
    ∀ (fs : List (String × Option JVal)), fs.all wfFile2D = true →
      (files2Dmake R P O fs).halt = none := by
  intro fs
  induction fs with
  | nil => intro _; rfl
  | cons f rest ih =>
      intro h
      rw [List.all_cons, Bool.and_eq_true] at h
      obtain ⟨n, d⟩ := f
      simp [files2Dmake, file2Dmake_ok R P O n d h.1, ih h.2]

end AtomGPT

namespace AtomGPT

/-- A dict step of the Schema-A label emitter is skipped or rowed, never a
crash and never a geometry write. -/
theorem step2Didprop_jobj (B K : String) (ei si : Nat)
    (kvs : List (String × JVal)) :
    step2Didprop B K ei si (.jobj kvs) ≠ .crash ∧
    ∀ w, step2Didprop B K ei si (.jobj kvs) ≠ .write w := by
  cases he : jlookup "energy" kvs with
  | none => simp [step2Didprop, he]
  | some ev =>
      cases hs : jlookup "structure" kvs with
      | none => cases ev <;> simp [step2Didprop, he, hs]
      | some sv =>
          cases hf : pyFalsy sv <;> cases ev <;>
            simp [step2Didprop, he, hs, hf]

/-- The Schema-A label step loop never halts on a list of dicts. -/
theorem steps2Didprop_ok (B K : String) (ei : Nat) :
    ∀ (ss : List JVal) (si : Nat), ss.all isJObj = true →
      (steps2Didprop B K ei si ss).2.2 = none := by
  intro ss
  induction ss with
  | nil => intro si _; rfl
  | cons s rest ih =>
      intro si h
      rw [List.all_cons, Bool.and_eq_true] at h
      obtain ⟨kvs, rfl⟩ := isJObj_exists s h.1
      cases hst : step2Didprop B K ei si (.jobj kvs) with
      | row f v => simp [steps2Didprop, hst, ih (si + 1) h.2]
      | skip => simp [steps2Didprop, hst, ih (si + 1) h.2]
      | crash => exact absurd hst (step2Didprop_jobj B K ei si kvs).1
      | write w => exact absurd hst ((step2Didprop_jobj B K ei si kvs).2 w)

/-- A well-shaped entry never halts the Schema-A label emitter. -/
theorem entry2Didprop_ok (B K : String) (ei : Nat)
    (e : JVal) (h : wfEntry e = true) :
    (entry2Didprop B K ei e).2.2 = none := by
  cases e
  case jobj kvs =>
    have h2 : wfStepsVal ((jlookup "steps" kvs).getD (.jarr [])) = true := h
    cases hv : (jlookup "steps" kvs).getD (.jarr []) with
    | jarr ss =>
        rw [hv] at h2
        cases ss with
        | nil => simp [entry2Didprop, hv, pyFalsy]
        | cons s rest =>
            have hall : (s :: rest).all isJObj = true := by
              simpa [wfStepsVal, pyFalsy] using h2
            simp [entry2Didprop, hv, pyFalsy,
              steps2Didprop_ok B K ei (s :: rest) 0 hall]
    | jnull => simp [entry2Didprop, hv, pyFalsy]
    | jbool b =>
        rw [hv] at h2
        cases b with
        | false => simp [entry2Didprop, hv, pyFalsy]
        | true => simp [wfStepsVal, pyFalsy] at h2
    | jnum m e2 =>
        rw [hv] at h2
        simp only [wfStepsVal, pyFalsy, Bool.or_false] at h2
        simp [entry2Didprop, hv, pyFalsy, h2]
    | jstr s2 =>
        rw [hv] at h2
        simp only [wfStepsVal, pyFalsy, Bool.or_false] at h2
        simp [entry2Didprop, hv, pyFalsy, h2]
    | jobj o =>
        rw [hv] at h2
        simp only [wfStepsVal, pyFalsy, Bool.or_false] at h2
        simp [entry2Didprop, hv, pyFalsy, h2]
  all_goals simp [wfEntry] at h

/-- The Schema-A label entry loop never halts on well-shaped entries. -/
theorem entries2Didprop_ok (B K : String) :
    ∀ (es : List JVal) (ei : Nat), es.all wfEntry = true →
      (entries2Didprop B K ei es).2.2 = none := by
  intro es
  induction es with
  | nil => intro ei _; rfl
  | cons e rest ih =>
      intro ei h
      rw [List.all_cons, Bool.and_eq_true] at h
      simp [entries2Didprop, entry2Didprop_ok B K ei e h.1, ih (ei + 1) h.2]

/-- The Schema-A label group loop never halts on a well-shaped dict. -/
theorem groups2Didprop_ok (B : String) :
    ∀ (kvs : List (String × JVal)),
      kvs.all (fun kv => wfGroupVal kv.2) = true →
      (groups2Didprop B kvs).2.2 = none := by
  intro kvs
  induction kvs with
  | nil => intro _; rfl
  | cons kv rest ih =>
      intro h
      rw [List.all_cons, Bool.and_eq_true] at h
      obtain ⟨h1, h2⟩ := h
      obtain ⟨k, v⟩ := kv
      cases hfal : pyFalsy v with
      | true => simp [groups2Didprop, hfal, ih h2]
      | false =>
          unfold wfGroupVal at h1
          rw [hfal] at h1
          simp only [Bool.false_or] at h1
          cases v with
          | jarr es =>
              simp only at h1
              simp [groups2Didprop, hfal,
                entries2Didprop_ok B k es 0 h1, ih h2]
          | jnull => simp at h1
          | jbool b => simp at h1
          | jnum m e2 => simp at h1
          | jstr s2 => simp at h1
          | jobj o => simp at h1

/-- A well-shaped file never halts the Schema-A label emitter. -/
theorem file2Didprop_ok (n : String) (d : Option JVal)
    (h : wfFile2D (n, d) = true) : (file2Didprop n d).2.2 = none := by
  cases d with
  | none => rfl
  | some v =>
      have h2 : wfDoc2D v = true := h
      cases v with
      | jobj kvs =>
          have h3 : kvs.all (fun kv => wfGroupVal kv.2) = true := h2
          simp [file2Didprop, groups2Didprop_ok (jsonStem n) kvs h3]
      | jnull => simp [wfDoc2D] at h2
      | jbool b => simp [wfDoc2D] at h2
      | jnum m e2 => simp [wfDoc2D] at h2
      | jstr s2 => simp [wfDoc2D] at h2
      | jarr xs => simp [wfDoc2D] at h2

/-- The Schema-A label file loop runs to completion on well-shaped files. -/
theorem files2Didprop_ok :
    ∀ (fs : List (String × Option JVal)), fs.all wfFile2D = true →
      (files2Didprop fs).halt = none := by
  intro fs
  induction fs with
  | nil => intro _; rfl
  | cons f rest ih =>
      intro h
      rw [List.all_cons, Bool.and_eq_true] at h
      obtain ⟨n, d⟩ := f
      simp [files2Didprop, file2Didprop_ok n d h.1, ih h.2]

/-- Inserting into the sorted file list adds one element. -/
theorem insertFile_length (f : String × Option JVal) :
    ∀ l, (insertFile f l).length = l.length + 1 := by
  intro l
  induction l with
  | nil => rfl
  | cons g gs ih =>
      cases h : strLt f.1 g.1 <;> simp [insertFile, h, ih]

/-- The insertion-sort fold preserves total length. -/
theorem foldl_insert_length :
    ∀ (l acc : List (String × Option JVal)),
      (l.foldl (fun a f => insertFile f a) acc).length
        = acc.length + l.length := by
  intro l
  induction l with
  | nil => intro acc; simp
  | cons f rest ih =>
      intro acc
      simp only [List.foldl_cons]
      rw [ih (insertFile f acc), insertFile_length]
      simp [List.length_cons]
      omega

/-- Sorting preserves the number of files. -/
theorem sortFiles_length (l : List (String × Option JVal)) :
    (sortFiles l).length = l.length := by
  unfold sortFiles
  rw [foldl_insert_length]
  simp

/-- The sorted list is empty exactly when the input is. -/
theorem sortFiles_nil_iff (l : List (String × Option JVal)) :
    sortFiles l = [] ↔ l = [] := by
  constructor
  · intro h
    have hl := sortFiles_length l
    rw [h] at hl
    exact List.length_eq_zero.mp hl.symm
  · intro h; rw [h]; rfl

/-- Insertion preserves an `all` predicate. -/
theorem insertFile_all (p : String × Option JVal → Bool)
    (f : String × Option JVal) :
    ∀ l, (insertFile f l).all p = (p f && l.all p) := by
  intro l
  induction l with
  | nil => simp [insertFile]
  | cons g gs ih =>
      cases h : strLt f.1 g.1 with
      | true => simp [insertFile, h, List.all_cons]
      | false =>
          simp [insertFile, h, List.all_cons, ih]
          cases p f <;> cases p g <;> simp

/-- The insertion-sort fold preserves an `all` predicate. -/
theorem foldl_insert_all (p : String × Option JVal → Bool) :
    ∀ (l acc : List (String × Option JVal)),
      (l.foldl (fun a f => insertFile f a) acc).all p
        = (acc.all p && l.all p) := by
  intro l
  induction l with
  | nil => intro acc; simp
  | cons f rest ih =>
      intro acc
      simp only [List.foldl_cons, List.all_cons]
      rw [ih (insertFile f acc), insertFile_all]
      cases p f <;> cases acc.all p <;> simp

/-- Sorting preserves an `all` predicate. -/
theorem sortFiles_all (p : String × Option JVal → Bool)
    (l : List (String × Option JVal)) :
    (sortFiles l).all p = l.all p := by
  unfold sortFiles
  rw [foldl_insert_all]
  simp

end AtomGPT

namespace AtomGPT

/-- C5 counterexample: the Schema-B (3D) geometry emitter has no check for
an empty glob — with no input files it runs to completion and exits with
status zero, although the claim demands a non-zero exit exactly in that
case. -/
theorem C5_exit_status_cex :
    (main3Dposcars (fun _ => true) "POSCAR_" "POSCAR_files" true
      ([] : List (String × Option JVal))).halt = none := rfl

/-- C5 (amended): the 2D (Schema-A) tools exit non-zero exactly when the
output directory cannot be created or no input files match the glob, and
zero otherwise, for inputs that parse to well-shaped Schema-A documents;
the 3D (Schema-B) tools instead exit zero on an empty glob and
additionally exit non-zero on a malformed JSON file and on an absent or
empty entries list. -/
theorem C5_exit_status_amended :
    (∀ (R : JVal → Bool) (P O : String) (M : Bool)
        (files : List (String × Option JVal)),
        files.all wfFile2D = true →
        ((main2Dposcars R P O M files).halt ≠ none ↔
          (M = false ∨ files = []))) ∧
    (∀ (M : Bool) (files : List (String × Option JVal)),
        files.all wfFile2D = true →
        ((main2Didprop M files).halt ≠ none ↔ (M = false ∨ files = []))) ∧
    (main3Dposcars (fun _ => true) "POSCAR_" "POSCAR_files" true
        ([] : List (String × Option JVal))).halt = none ∧
    (main3Didprop "POSCAR_" ([] : List (String × Option JVal))).halt
        = none ∧
    (main3Dposcars (fun _ => true) "POSCAR_" "POSCAR_files" true
        [("a.json", none)]).halt = some .exit1 ∧
    (main3Didprop "POSCAR_" [("a.json", some (.jobj []))]).halt
        = some .exit1 := by
  refine ⟨?_, ?_, rfl, rfl, rfl, rfl⟩
  · intro R P O M files hwf
    cases M with
    | false => simp [main2Dposcars]
    | true =>
        by_cases hf : files = []
        · subst hf
          simp [main2Dposcars, sortFiles]
        · have hs : sortFiles files ≠ [] :=
            fun h => hf ((sortFiles_nil_iff files).mp h)
          have hie : (sortFiles files).isEmpty = false := by
            cases hsf : sortFiles files with
            | nil => exact absurd hsf hs
            | cons a l => rfl
          have hwfs : (sortFiles files).all wfFile2D = true := by
            rw [sortFiles_all]; exact hwf
          have hnone := files2Dmake_ok R P O (sortFiles files) hwfs
          simp [main2Dposcars, hie, hnone, hf]
  · intro M files hwf
    cases M with
    | false => simp [main2Didprop]
    | true =>
        by_cases hf : files = []
        · subst hf
          simp [main2Didprop, sortFiles]
        · have hs : sortFiles files ≠ [] :=
            fun h => hf ((sortFiles_nil_iff files).mp h)
          have hie : (sortFiles files).isEmpty = false := by
            cases hsf : sortFiles files with
            | nil => exact absurd hsf hs
            | cons a l => rfl
          have hwfs : (sortFiles files).all wfFile2D = true := by
            rw [sortFiles_all]; exact hwf
          have hnone := files2Didprop_ok (sortFiles files) hwfs
          simp [main2Didprop, hie, hnone, hf]

/-- C5 witness: the amended equivalence instantiated at a one-file
well-shaped batch for both 2D tools. -/
theorem C5_exit_status_witness :
    ((main2Dposcars (fun _ => true) "POSCAR_" "out" true
        [("a.json", some (.jobj [("g", .jarr [.jobj [("steps", .jarr
          [.jobj [("structure", .jobj [("x", .jnum 1 0)]),
                  ("energy", .jnum 1 0)]])]])]))]).halt ≠ none ↔
      (true = false ∨
        ([("a.json", some (.jobj [("g", .jarr [.jobj [("steps", .jarr
          [.jobj [("structure", .jobj [("x", .jnum 1 0)]),
                  ("energy", .jnum 1 0)]])]])]))]
          : List (String × Option JVal)) = [])) ∧
    ((main2Didprop true
        [("a.json", some (.jobj [("g", .jarr [.jobj [("steps", .jarr
          [.jobj [("structure", .jobj [("x", .jnum 1 0)]),
                  ("energy", .jnum 1 0)]])]])]))]).halt ≠ none ↔
      (true = false ∨
        ([("a.json", some (.jobj [("g", .jarr [.jobj [("steps", .jarr
          [.jobj [("structure", .jobj [("x", .jnum 1 0)]),
                  ("energy", .jnum 1 0)]])]])]))]
          : List (String × Option JVal)) = [])) :=
  ⟨C5_exit_status_amended.1 (fun _ => true) "POSCAR_" "out" true
      [("a.json", some (.jobj [("g", .jarr [.jobj [("steps", .jarr
        [.jobj [("structure", .jobj [("x", .jnum 1 0)]),
                ("energy", .jnum 1 0)]])]])]))] rfl,
   C5_exit_status_amended.2.1 true
      [("a.json", some (.jobj [("g", .jarr [.jobj [("steps", .jarr
        [.jobj [("structure", .jobj [("x", .jnum 1 0)]),
                ("energy", .jnum 1 0)]])]])]))] rfl⟩

end AtomGPT
